import Mathlib

/-!
Shallow embedding of the search-generator core (`src/app.py`): the two
search-string validators, the LinkedIn result estimator, the domain-context
table, the prompt builder, and the model-response JSON recovery logic,
together with theorems settling the specification's claims.

Modelling conventions:
* Python strings are modelled as `List Char` (message/prompt text uses `String`);
  `len` is `List.length`.
* Python floats are modelled as exact rationals (`ℚ`).  All float values the
  claims touch are produced by exact decimal arithmetic, and the display
  rounding `round(x, 1)` is the identity on every value the claims mention
  (the complexity scores are integer multiples of 1/2), so the embedded
  reports store the unrounded value.
* `str.upper` / `str.lower` and the regex class `\w` are modelled on ASCII
  (`Char.toUpper`, `Char.toLower`, `Char.isAlphanum`), matching Python on the
  ASCII search strings the program manipulates.
-/

/-- ASCII model of the regex word-character class `\w`. -/
def isWordChar (c : Char) : Bool := c.isAlphanum || c = '_'

/-- Auxiliary scanner for `countSubstr`: counts non-overlapping occurrences of
the non-empty pattern `p`, scanning left to right as Python's `str.count`
does.  `skip` is the number of positions still covered by the previous match
(so that a new match may only begin after it). -/
def countSubstrAux (p : List Char) : List Char → Nat → Nat
  | [], _ => 0
  | c :: rest, skip =>
    if skip = 0 then
      if p.isPrefixOf (c :: rest) then 1 + countSubstrAux p rest (p.length - 1)
      else countSubstrAux p rest 0
    else countSubstrAux p rest (skip - 1)

/-- Python `s.count(pat)`: number of non-overlapping occurrences of `pat`
in `s` (for the empty pattern Python returns `len(s) + 1`). -/
def countSubstr (s pat : List Char) : Nat :=
  match pat with
  | [] => s.length + 1
  | _ :: _ => countSubstrAux pat s 0

/-- Boundary test for the character preceding a candidate match of a
word-boundary regex: start of string, or a non-word character. -/
def prevBoundary : Option Char → Bool
  | none => true
  | some c => !isWordChar c

/-- Boundary test for the text following a candidate match of a word-boundary
regex: end of string, or a non-word character. -/
def nextBoundary : List Char → Bool
  | [] => true
  | c :: _ => !isWordChar c

/-- Word-boundary test to the left of a match that is preceded by the text
`u` (and by the character `prev` when `u` is empty): there is a boundary iff
the last character before the match, if any, is not a word character. -/
def leftBoundary (prev : Option Char) (u : List Char) : Bool :=
  match u.getLast? with
  | none => prevBoundary prev
  | some c => !isWordChar c

/-- Scanner for `re.search(r'\b(w₁|w₂|...)\b', s)`: `prev` carries the
character preceding the current position (`none` at the start of the string).
Returns `true` iff some word of `ws` occurs at some position with word
boundaries on both sides. -/
def hasOpAux (ws : List (List Char)) : Option Char → List Char → Bool
  | _, [] => false
  | prev, c :: rest =>
    (prevBoundary prev &&
      ws.any fun t => t.isPrefixOf (c :: rest) && nextBoundary ((c :: rest).drop t.length)) ||
    hasOpAux ws (some c) rest

/-- Model of `re.search(r'\b(and|or|not)\b', search_string)` from
`validate_linkedin_search` (case-sensitive: only the lower-case words match). -/
def hasLowerBoolOp (s : List Char) : Bool :=
  hasOpAux ["and".data, "or".data, "not".data] none s

/-- Model of `re.search(r'\b(AND|OR|NOT)\b', search_string)` from
`validate_developmentaid_search`. -/
def hasUpperBoolOp (s : List Char) : Bool :=
  hasOpAux ["AND".data, "OR".data, "NOT".data] none s

/-- Model of `re.search(r'\*\w+', search_string)`: a `*` immediately followed by a
word character. -/
def starBeforeWord : List Char → Bool
  | [] => false
  | [_] => false
  | c₁ :: c₂ :: rest => (c₁ = '*' && isWordChar c₂) || starBeforeWord (c₂ :: rest)

/-- Scanner for the part of `re.search(r'"[^"]*\*[^"]*"', s)` that runs after
an opening `"` has been seen: `seen` records whether a `*` has occurred since
the most recent `"`. -/
def afterQuote (seen : Bool) : List Char → Bool
  | [] => false
  | c :: rest =>
    if c = '"' then seen || afterQuote false rest
    else afterQuote (seen || c = '*') rest

/-- Model of `re.search(r'"[^"]*\*[^"]*"', search_string)`: a `*` strictly between two
`"` characters that have no other `"` between them. -/
def quotedStar : List Char → Bool
  | [] => false
  | c :: rest => if c = '"' then afterQuote false rest else quotedStar rest

/-- The `ValidationReport` produced by `validate_linkedin_search`
(dict keys become fields). -/
structure LinkedInValidation where
  valid : Bool
  issues : List String
  warnings : List String
  complexity_score : ℚ
  and_count : Nat
  or_count : Nat
  title_count : Nat
  length : Nat
deriving Repr, DecidableEq

def liMsgLower : String := "Boolean operators must be UPPERCASE (AND, OR, NOT)"
def liMsgQuotes : String := "Unmatched quotes detected"
def liMsgParens : String := "Unmatched parentheses"
def liWarnLong : String := "Search string very long (>1000 chars) - may be slow"

/-- Embedding of `validate_linkedin_search` (src/app.py lines 61–105). -/
def validate_linkedin_search (s : List Char) : LinkedInValidation :=
  let issues : List String :=
    (if hasLowerBoolOp s then [liMsgLower] else []) ++
    (if s.count '"' % 2 ≠ 0 then [liMsgQuotes] else []) ++
    (if s.count '(' ≠ s.count ')' then [liMsgParens] else [])
  let and_count := countSubstr (s.map Char.toUpper) (" AND ".data)
  let or_count := countSubstr (s.map Char.toUpper) (" OR ".data)
  let title_count := countSubstr (s.map Char.toLower) ("title:".data)
  let complexity_score : ℚ := (and_count : ℚ) * 2 + (or_count : ℚ) * 0.5 + (title_count : ℚ) * 3
  let warnings : List String :=
    (if s.length > 1000 then [liWarnLong] else []) ++
    (if and_count > 4 then
      ["Too many AND operators (" ++ toString and_count ++ ") - may be too restrictive"] else []) ++
    (if title_count > 2 then
      ["Multiple title: operators (" ++ toString title_count ++ ") - very restrictive"] else [])
  { valid := issues.length == 0
    issues := issues
    warnings := warnings
    complexity_score := complexity_score
    and_count := and_count
    or_count := or_count
    title_count := title_count
    length := s.length }

/-- The `EstimationReport` produced by `estimate_linkedin_results`.  The
`score` field holds the exact (unrounded) value; the Python code rounds it to
one decimal only for display in the returned dict. -/
structure LinkedInEstimate where
  estimated_range : String
  score : ℚ
  quality : String
deriving Repr, DecidableEq

/-- The score computed by `estimate_linkedin_results` (src/app.py lines
112–123): baseline 100, times `0.35 ** and_count`, times `0.25 ** title_count`,
times `0.7` when the length exceeds 500. -/
def linkedinScore (s : List Char) : ℚ :=
  let validation := validate_linkedin_search s
  let score : ℚ := 100
  let score := score * (0.35 : ℚ) ^ validation.and_count
  let score := score * (0.25 : ℚ) ^ validation.title_count
  if validation.length > 500 then score * 0.7 else score

/-- Embedding of `estimate_linkedin_results` (src/app.py lines 108–143). -/
def estimate_linkedin_results (s : List Char) : LinkedInEstimate :=
  let score := linkedinScore s
  if score > 50 then
    { estimated_range := "500-2000+", score := score, quality := "✅ Good breadth" }
  else if score > 20 then
    { estimated_range := "100-500", score := score, quality := "✅ Acceptable" }
  else if score > 5 then
    { estimated_range := "20-100", score := score, quality := "⚠️ May be restrictive" }
  else
    { estimated_range := "0-20", score := score, quality := "❌ Likely too restrictive" }

/-- The `ValidationReport` produced by `validate_developmentaid_search`. -/
structure DevAidValidation where
  valid : Bool
  issues : List String
  warnings : List String
  complexity_score : ℚ
  and_count : Nat
  or_count : Nat
  not_count : Nat
  length : Nat
deriving Repr, DecidableEq

def daWarnOps : String := "Using uppercase AND/OR/NOT - DevelopmentAid uses +, |, - instead"
def daWarnBoost : String := "Boost operator ^ should be used with OR (|)"
def daMsgWildBefore : String := "Wildcard * cannot be used before word stem (e.g., *finance is invalid)"
def daMsgWildInside : String := "Wildcard * cannot be used inside quoted phrases"

/-- Embedding of `validate_developmentaid_search` (src/app.py lines 146–190). -/
def validate_developmentaid_search (s : List Char) : DevAidValidation :=
  let issues : List String :=
    (if s.count '"' % 2 ≠ 0 then [liMsgQuotes] else []) ++
    (if s.count '(' ≠ s.count ')' then [liMsgParens] else []) ++
    (if starBeforeWord s then [daMsgWildBefore] else []) ++
    (if quotedStar s then [daMsgWildInside] else [])
  let warnings : List String :=
    (if hasUpperBoolOp s then [daWarnOps] else []) ++
    (if '^' ∈ s ∧ '|' ∉ s then [daWarnBoost] else [])
  let and_count := s.count '+' + countSubstr s (" AND ".data)
  let or_count := s.count '|' + countSubstr s (" OR ".data)
  let not_count := s.count '-' + countSubstr s (" NOT ".data)
  let complexity_score : ℚ := (and_count : ℚ) * 1.5 + (or_count : ℚ) * 0.3 + (not_count : ℚ) * 1
  { valid := issues.length == 0
    issues := issues
    warnings := warnings
    complexity_score := complexity_score
    and_count := and_count
    or_count := or_count
    not_count := not_count
    length := s.length }

/-- The `"software_engineering"` entry of the `contexts` dict in `get_domain_context` (src/app.py). -/
def ctxSoftwareEngineering : String :=
  "\n## Software Engineering Context:\n\n**Profile Language Patterns:**\n- People say: \"built\", \"developed\", \"implemented\", \"worked with\"\n- NOT: \"proficiency in\", \"expertise in\"\n- Tools trump abstractions: \"React\" > \"frontend framework\"\n- Action verbs matter: \"deployed ML models\" > \"machine learning skills\"\n\n**Key Evidence Terms:**\n- Languages: Python, JavaScript, Java, Go, Rust, C++\n- Frameworks: React, Django, Flask, Node.js, Spring\n- Cloud: AWS, Azure, GCP, EC2, Lambda, S3\n- Tools: Docker, Kubernetes, Jenkins, Git, CI/CD\n\n**Common Title Variations:**\n- Software Engineer = Developer = SWE = Programmer\n- Backend = Server-side = API Developer\n- Full Stack = Full-stack = Fullstack\n- DevOps = SRE = Platform Engineer\n\n**Synonym Examples:**\n\"Machine Learning\" → ML, AI, Data Science, \"built models\", \"trained algorithms\", TensorFlow, PyTorch\n\"Cloud\" → AWS, Azure, GCP, \"cloud infrastructure\", \"deployed to cloud\", Docker, Kubernetes\n"

/-- The `"international_development"` entry of the `contexts` dict in `get_domain_context` (src/app.py). -/
def ctxInternationalDevelopment : String :=
  "\n## International Development Context:\n\n**Profile Language Patterns:**\n- People say: \"implemented project\", \"managed programme\", \"worked in\"\n- NOT: \"project implementation expertise\", \"programme management proficiency\"\n- Donor names are critical: USAID, World Bank, UNDP, EU, DFID\n- Geography matters: \"East Africa\", \"field-based\", \"fragile states\"\n\n**Key Evidence Terms:**\n- Sectors: WASH, M&E, MEAL, DRR, GBV, livelihoods, governance\n- Donors: USAID, World Bank, UNDP, EU, DFID, AfDB, ADB\n- Terms: capacity building, theory of change, logframe, field-based\n- Locations: East Africa, West Africa, Sahel, MENA, South Asia\n\n**Common Title Variations:**\n- Project Manager = Programme Manager = PM = Project Coordinator\n- M&E Specialist = MEAL Officer = Monitoring Officer\n- WASH Specialist = Water Engineer = WASH Coordinator\n- Team Leader = Chief of Party = Programme Director\n\n**Synonym Examples:**\n\"M&E\" → Monitoring and Evaluation, MEAL, \"tracked indicators\", \"evaluated programs\", logframe\n\"WASH\" → Water Sanitation, \"water projects\", \"sanitation programs\", borehole, water supply\n"

/-- The `"finance"` entry of the `contexts` dict in `get_domain_context` (src/app.py). -/
def ctxFinance : String :=
  "\n## Finance Context:\n\n**Profile Language Patterns:**\n- People say: \"analyzed\", \"modeled\", \"managed portfolio\", \"closed deals\"\n- NOT: \"financial analysis expertise\", \"portfolio management skills\"\n- Certifications matter: CFA, FRM, CPA, Series 7\n- Deal experience is concrete: \"M&A transaction\", \"IPO\", \"$500M AUM\"\n\n**Key Evidence Terms:**\n- Skills: financial modeling, valuation, DCF, LBO, due diligence\n- Tools: Bloomberg, FactSet, Excel, Python, R\n- Products: equity, fixed income, derivatives, structured products\n- Regulations: Basel, Dodd-Frank, MiFID, SOX\n\n**Common Title Variations:**\n- Financial Analyst = Finance Analyst = Investment Analyst\n- Portfolio Manager = Fund Manager = Asset Manager\n- Investment Banking = IB = M&A Analyst\n\n**Synonym Examples:**\n\"Financial Modeling\" → DCF, valuation, \"built models\", Excel, \"financial analysis\"\n\"Risk Management\" → \"risk analysis\", VaR, \"stress testing\", \"risk assessment\"\n"

/-- Literal prompt text of `create_improved_prompt` between the start and domain_context (placeholders `\x7b...\x7d` of the f-string). -/
def promptPart1 : String :=
  "You are an expert recruiter who creates EFFECTIVE search strings that actually return results.\n\n# CRITICAL PHILOSOPHY: SIMPLER IS BETTER\n\nThe biggest mistake in Boolean search is over-engineering. Each restriction cuts results by 50-80%.\n\n## LinkedIn Reality Check:\n- Each AND operator = 50-70% reduction in results\n- title: operator = 80% reduction in results  \n- Exact phrases = 40% reduction in results\n- Perfect match search with 5 ANDs = 0-20 results ❌\n- Simple search with 2 ANDs = 200-500 results ✅\n\n## DevelopmentAid Reality Check:\n- Focus on sector keywords and donor experience\n- Use boost operator (^) to prioritize key terms\n- Include geographic context\n- Broader searches work better than narrow ones\n\n# PLATFORM SYNTAX:\n\n## LinkedIn Recruiter:\n- AND, OR, NOT (must be UPPERCASE)\n- Quotes for exact phrases: \"Machine Learning\"\n- Parentheses for grouping: (Python OR Java)\n- title: operator (use sparingly!)\n- Maximum 3 AND operators in primary search\n- Maximum 5 AND operators even in focused search\n\n## DevelopmentAid:\n- AND: `+` or space (space is assumed AND)\n- OR: `|` or comma `,`\n- NOT: `-` (minus)\n- Exact phrase: `\"water sanitation\"`\n- Grouping: `(water|sanitation) + (project|programme)`\n- Wildcard: `financ*` (finds finance, financial, financing)\n- Boost: `term^5` (must use with OR: `(water)^10 | sanitation`)\n- Example: `(WASH|\"water sanitation\")^10 | (M&E)^8 + (USAID|\"World Bank\")`\n\n# YOUR TASK:\n\nAnalyze the job description and create SIMPLE, EFFECTIVE searches.\n\n"

/-- Literal prompt text of `create_improved_prompt` between domain_context and platform (placeholders `\x7b...\x7d` of the f-string). -/
def promptPart2 : String :=
  "\n\n## Step 1: Extract Core Requirements\n\nIdentify:\n1. **2-3 Core Skills** (absolute must-haves that define the role)\n2. **3-5 Secondary Skills** (nice-to-haves for filtering)\n3. **5-10 Job Title Variations** (be creative!)\n4. **Evidence Terms** (tools/outputs that prove skills)\n\n## Step 2: Generate Context-Aware Synonyms\n\nFor each core skill, provide:\n- **Formal terms**: Professional/academic language\n- **Profile phrases**: How people actually describe doing this work\n- **Evidence terms**: Tools, outputs, certifications that prove it\n\nExample:\nRequirement: \"Machine Learning\"\n- Formal: \"Machine Learning\", \"ML\", \"Artificial Intelligence\", \"Data Science\"\n- Profile: \"built ML models\", \"trained algorithms\", \"deployed models\", \"worked on AI\"\n- Evidence: \"TensorFlow\", \"PyTorch\", \"scikit-learn\", \"model deployment\"\n\n## Step 3: Create Tiered Searches\n\nGenerate 4 search tiers:\n\n1. **broad** (300-1000 results): 1-2 core concepts, mostly OR variations\n2. **primary** (100-500 results): Add one critical filter\n3. **focused** (50-200 results): Add niche requirements  \n4. **ultra_specific** (10-50 results): Kitchen sink for perfect matches\n\n## Search Building Formula:\n\n**LinkedIn:**\n```\nBroad: (skill1 OR skill2 OR skill3)\nPrimary: (skill1 OR skill2 OR skill3) AND (role1 OR role2 OR role3)\nFocused: (skill1 OR skill2 OR skill3) AND (role1 OR role2 OR role3) AND (evidence1 OR evidence2)\nUltra_specific: Add location, seniority, or more evidence\n```\n\n**DevelopmentAid:**\n```\nBroad: (sector1|sector2)^10 | (sector3)^8\nPrimary: (sector1|sector2)^10 | (sector3) + (donor1|donor2)\nFocused: (sector1|sector2)^10 + (donor1|donor2) + (geography1|geography2)\nUltra_specific: Add specific technical skills or certifications\n```\n\n# CONFIGURATION:\n- Platform: "

/-- Literal prompt text of `create_improved_prompt` between platform and domain (placeholders `\x7b...\x7d` of the f-string). -/
def promptPart3 : String :=
  "\n- Domain: "

/-- Literal prompt text of `create_improved_prompt` between domain and include_location (placeholders `\x7b...\x7d` of the f-string). -/
def promptPart4 : String :=
  "\n- Include location: "

/-- Literal prompt text of `create_improved_prompt` between include_location and include_seniority (placeholders `\x7b...\x7d` of the f-string). -/
def promptPart5 : String :=
  "\n- Include seniority: "

/-- Literal prompt text of `create_improved_prompt` between include_seniority and job_text[:15000] (placeholders `\x7b...\x7d` of the f-string). -/
def promptPart6 : String :=
  "\n\n# JOB DESCRIPTION:\n"

/-- Literal prompt text of `create_improved_prompt` between job_text[:15000] and the end (placeholders `\x7b...\x7d` of the f-string). -/
def promptPart7 : String :=
  "\n\n# OUTPUT FORMAT (JSON):\n\n\x7b\n  \"domain_detected\": \"Detected domain/industry\",\n  \n  \"analysis\": \x7b\n    \"coreSkills\": [\"2-3 absolute must-haves\"],\n    \"secondarySkills\": [\"3-5 nice-to-haves\"],\n    \"jobTitles\": [\"5-10 title variations\"],\n    \"seniorityLevel\": \"entry|mid|senior|lead\",\n    \"keyEvidence\": [\"Tools/outputs that prove skills\"]\n  \x7d,\n  \n  \"contextualSynonyms\": \x7b\n    \"SkillName\": \x7b\n      \"formal\": [\"Professional terms\"],\n      \"profile_language\": [\"How people describe doing it\"],\n      \"evidence\": [\"Tools/outputs\"],\n      \"combined_or_clause\": \"(term1 OR term2 OR term3 OR tool1 OR tool2)\"\n    \x7d\n  \x7d,\n  \n  \"linkedinSearches\": \x7b\n    \"broad\": \x7b\n      \"search\": \"Search string with 1-2 AND operators max\",\n      \"rationale\": \"Why this structure\",\n      \"estimated_results\": \"300-1000\"\n    \x7d,\n    \"primary\": \x7b\n      \"search\": \"Search string with 2-3 AND operators max\",\n      \"rationale\": \"Why this structure\", \n      \"estimated_results\": \"100-500\"\n    \x7d,\n    \"focused\": \x7b\n      \"search\": \"Search string with 3-4 AND operators max\",\n      \"rationale\": \"Why this structure\",\n      \"estimated_results\": \"50-200\"\n    \x7d,\n    \"ultra_specific\": \x7b\n      \"search\": \"Kitchen sink search\",\n      \"rationale\": \"For perfect matches only\",\n      \"estimated_results\": \"10-50\"\n    \x7d\n  \x7d,\n  \n  \"developmentaidSearches\": \x7b\n    \"broad\": \x7b\n      \"search\": \"Simple sector search with boost\",\n      \"rationale\": \"Why this structure\",\n      \"estimated_results\": \"200-800\"\n    \x7d,\n    \"primary\": \x7b\n      \"search\": \"Sector + donor/geography\",\n      \"rationale\": \"Why this structure\",\n      \"estimated_results\": \"80-300\"\n    \x7d,\n    \"focused\": \x7b\n      \"search\": \"Sector + donor + specific skills\",\n      \"rationale\": \"Why this structure\",\n      \"estimated_results\": \"30-150\"\n    \x7d,\n    \"ultra_specific\": \x7b\n      \"search\": \"All criteria with wildcards\",\n      \"rationale\": \"For exact matches\",\n      \"estimated_results\": \"10-50\"\n    \x7d\n  \x7d,\n  \n  \"searchStrategy\": \"2-3 sentences explaining the overall approach\",\n  \"warnings\": [\"Any concerns about search difficulty\"],\n  \"manualReviewTips\": [\"What to look for when reviewing results\"]\n\x7d\n\n# QUALITY CHECKLIST:\n\nLinkedIn:\n✓ Maximum 3 AND operators in primary search\n✓ Each OR group has 3-5 variations\n✓ Includes both formal terms and profile language\n✓ Evidence terms (tools) included\n✓ Avoid or minimize title: operator usage\n\nDevelopmentAid:\n✓ Uses correct syntax: +, |, -, not AND/OR/NOT\n✓ Boost operator (^) used with key terms\n✓ Includes sector-specific terminology\n✓ Includes donor/geography context\n✓ Wildcard (*) used for term variations\n\nGenerate searches that WILL RETURN RESULTS, not perfect theoretical matches!"

/-- Embedding of `get_domain_context` (src/app.py lines 195–277): `dict.get` with default
`""` on the three-key `contexts` dict. -/
def get_domain_context (domain : String) : String :=
  if domain = "software_engineering" then ctxSoftwareEngineering
  else if domain = "international_development" then ctxInternationalDevelopment
  else if domain = "finance" then ctxFinance
  else ""

/-- How a Python bool renders inside an f-string. -/
def pyBoolStr (b : Bool) : String := if b then "True" else "False"

/-- Python slicing `job_text[:15000]`. -/
def truncate15000 (j : String) : String := String.mk (j.data.take 15000)

/-- The `domain_context` local of `create_improved_prompt` (src/app.py line 287). -/
def promptContext (domain : String) : String :=
  if domain ≠ "auto_detect" then get_domain_context domain else ""

/-- Embedding of `create_improved_prompt` (src/app.py lines 282–482).  The module-level
widget values `include_location` and `include_seniority` read by the f-string
are passed as parameters. -/
def create_improved_prompt (job_text platform domain : String)
    (include_location include_seniority : Bool) : String :=
  promptPart1 ++ promptContext domain ++ promptPart2 ++ platform ++ promptPart3 ++
  domain ++ promptPart4 ++ pyBoolStr include_location ++ promptPart5 ++
  pyBoolStr include_seniority ++ promptPart6 ++ truncate15000 job_text ++ promptPart7

/-- The opening brace character (written via its code point). -/
def lbrace : Char := Char.ofNat 123

/-- The closing brace character (written via its code point). -/
def rbrace : Char := Char.ofNat 125

/-- Python `s.find(c)`: index of the first occurrence, `none` for Python's `-1`. -/
def pyFind : List Char → Char → Option Nat
  | [], _ => none
  | c :: rest, t => if c = t then some 0 else (pyFind rest t).map (· + 1)

/-- Python `s.rfind(c)`: index of the last occurrence, `none` for Python's `-1`. -/
def pyRfind : List Char → Char → Option Nat
  | [], _ => none
  | c :: rest, t =>
    match pyRfind rest t with
    | some i => some (i + 1)
    | none => if c = t then some 0 else none

/-- Python slicing `s[a:b]` (clamping, empty when `b ≤ a`). -/
def pySlice (s : List Char) (a b : Nat) : List Char := (s.drop a).take (b - a)

/-- JSON values, as produced by the external JSON parser. -/
inductive JVal where
  | jnull : JVal
  | jbool : Bool → JVal
  | jnum : Int → JVal
  | jstr : List Char → JVal
  | jarr : List JVal → JVal
  | jobj : List (List Char × JVal) → JVal

/-- JSON whitespace. -/
def isJsonWs (c : Char) : Bool := c = ' ' || c = '\n' || c = '\t' || c = '\r'

/-- Drop leading JSON whitespace. -/
def skipWs : List Char → List Char
  | [] => []
  | c :: rest => if isJsonWs c then skipWs rest else c :: rest

/-- Parse a JSON string body after the opening `"`, up to the closing `"`
(model without escape sequences). -/
def parseStringLit : List Char → Option (List Char × List Char)
  | [] => none
  | c :: rest =>
    if c = '"' then some ([], rest)
    else (parseStringLit rest).map fun p => (c :: p.1, p.2)

/-- Digits-to-number accumulator. -/
def digitsToNat (ds : List Char) : Nat :=
  ds.foldl (fun a c => a * 10 + (c.toNat - 48)) 0

/-- Parse a JSON integer literal (model without fractions/exponents). -/
def parseNum (l : List Char) : Option (JVal × List Char) :=
  match l with
  | '-' :: r =>
    let p := r.span Char.isDigit
    if p.1 = [] then none else some (.jnum (-(digitsToNat p.1 : Int)), p.2)
  | _ =>
    let p := l.span Char.isDigit
    if p.1 = [] then none else some (.jnum (digitsToNat p.1 : Int), p.2)

mutual

/-- Recursive-descent JSON value parser (fuel-indexed model of the external
strict parser, on the JSON subset without escapes/fractions). -/
def parseVal : Nat → List Char → Option (JVal × List Char)
  | 0, _ => none
  | fuel + 1, l =>
    match skipWs l with
    | [] => none
    | c :: r =>
      if c = lbrace then
        match skipWs r with
        | [] => none
        | c₂ :: r₂ =>
          if c₂ = rbrace then some (.jobj [], r₂)
          else (parseObjItems fuel (c₂ :: r₂)).map fun p => (.jobj p.1, p.2)
      else if c = '[' then
        match skipWs r with
        | [] => none
        | c₂ :: r₂ =>
          if c₂ = ']' then some (.jarr [], r₂)
          else (parseArrItems fuel (c₂ :: r₂)).map fun p => (.jarr p.1, p.2)
      else if c = '"' then
        (parseStringLit r).map fun p => (.jstr p.1, p.2)
      else if c = 'n' then
        if ("ull".data).isPrefixOf r then some (.jnull, r.drop 3) else none
      else if c = 't' then
        if ("rue".data).isPrefixOf r then some (.jbool true, r.drop 3) else none
      else if c = 'f' then
        if ("alse".data).isPrefixOf r then some (.jbool false, r.drop 4) else none
      else parseNum (c :: r)

/-- Comma-separated JSON array items up to the closing `]`. -/
def parseArrItems : Nat → List Char → Option (List JVal × List Char)
  | 0, _ => none
  | fuel + 1, l =>
    match parseVal fuel l with
    | none => none
    | some (v, r) =>
      match skipWs r with
      | ',' :: r₂ => (parseArrItems fuel r₂).map fun p => (v :: p.1, p.2)
      | c :: r₂ => if c = ']' then some ([v], r₂) else none
      | [] => none

/-- Comma-separated JSON object members up to the closing brace. -/
def parseObjItems : Nat → List Char → Option (List (List Char × JVal) × List Char)
  | 0, _ => none
  | fuel + 1, l =>
    match skipWs l with
    | '"' :: r =>
      match parseStringLit r with
      | none => none
      | some (k, r₁) =>
        match skipWs r₁ with
        | ':' :: r₂ =>
          match parseVal fuel r₂ with
          | none => none
          | some (v, r₃) =>
            match skipWs r₃ with
            | ',' :: r₄ => (parseObjItems fuel r₄).map fun p => ((k, v) :: p.1, p.2)
            | c :: r₄ => if c = rbrace then some ([(k, v)], r₄) else none
            | [] => none
        | _ => none
    | _ => none

end

/-- Model of the external strict JSON parse `json.loads`: a single JSON
document with nothing but whitespace around it. -/
def jsonLoads (l : List Char) : Option JVal :=
  match parseVal (l.length + 1) l with
  | some (v, rest) => if skipWs rest = [] then some v else none
  | none => none

/-- The response-parsing logic of `analyze_job_description`
(src/app.py lines 517–536): strict parse first; on failure, parse the
substring from the first `\x7b` to the last `\x7d`; `none` models the
"show raw text / return None" failure paths. -/
def parse_model_response (content : List Char) : Option JVal :=
  match jsonLoads content with
  | some r => some r
  | none =>
    match pyFind content lbrace, pyRfind content rbrace with
    | some st, some en => jsonLoads (pySlice content st (en + 1))
    | _, _ => none


/-! ### Characterization of the regex scanners -/

theorem leftBoundary_nil (prev : Option Char) : leftBoundary prev [] = prevBoundary prev := rfl

theorem leftBoundary_cons (prev : Option Char) (c : Char) (u : List Char) :
    leftBoundary prev (c :: u) = leftBoundary (some c) u := by
  cases u with
  | nil => rfl
  | cons d u =>
    show (match (c :: d :: u).getLast? with
      | none => prevBoundary prev
      | some e => !isWordChar e) = _
    rw [List.getLast?_cons_cons]
    rcases h : (d :: u).getLast? with _ | e
    · exact absurd h (by simp)
    · simp only [leftBoundary, h]

/-- The scanner `starBeforeWord` finds exactly the strings in which a `*` is
immediately followed by a word character. -/
theorem starBeforeWord_iff (s : List Char) :
    starBeforeWord s = true ↔ ∃ u c w, s = u ++ '*' :: c :: w ∧ isWordChar c = true := by
  induction s with
  | nil =>
    simp only [starBeforeWord, Bool.false_eq_true, false_iff]
    rintro ⟨u, c, w, h, -⟩
    exact absurd h (by simp)
  | cons a rest ih =>
    cases rest with
    | nil =>
      simp only [starBeforeWord, Bool.false_eq_true, false_iff]
      rintro ⟨u, c, w, h, -⟩
      rcases u with _ | ⟨d, u⟩ <;> simp_all
    | cons b rest2 =>
      simp only [starBeforeWord, Bool.or_eq_true, Bool.and_eq_true, decide_eq_true_eq]
      constructor
      · rintro (⟨rfl, hb⟩ | h2)
        · exact ⟨[], b, rest2, rfl, hb⟩
        · obtain ⟨u, c, w, hrw, hc⟩ := ih.mp h2
          exact ⟨a :: u, c, w, by simp [hrw], hc⟩
      · rintro ⟨u, c, w, hrw, hc⟩
        rcases u with _ | ⟨d, u⟩
        · obtain ⟨rfl, rfl, rfl⟩ : a = '*' ∧ b = c ∧ rest2 = w := by simpa using hrw
          exact Or.inl ⟨rfl, hc⟩
        · obtain ⟨rfl, hrest⟩ : a = d ∧ b :: rest2 = u ++ '*' :: c :: w := by simpa using hrw
          exact Or.inr (ih.mpr ⟨u, c, w, hrest, hc⟩)

theorem isPrefixOf_eq_true_iff :
    ∀ (t l : List Char), t.isPrefixOf l = true ↔ ∃ w, t ++ w = l := by
  intro t
  induction t with
  | nil => intro l; simp [List.isPrefixOf]
  | cons c t ih =>
    intro l
    cases l with
    | nil => simp [List.isPrefixOf]
    | cons d l =>
      simp only [List.isPrefixOf, Bool.and_eq_true, beq_iff_eq, ih, List.cons_append,
        List.cons.injEq]
      constructor
      · rintro ⟨rfl, w, rfl⟩
        exact ⟨w, rfl, rfl⟩
      · rintro ⟨w, rfl, rfl⟩
        exact ⟨rfl, w, rfl⟩

/-- The word-boundary scanner `hasOpAux` finds exactly the strings that
decompose as `u ++ t ++ w` for a word `t` of `ws` with boundaries on both
sides. -/
theorem hasOpAux_iff (ws : List (List Char)) (hne : ∀ t ∈ ws, t ≠ []) :
    ∀ (l : List Char) (prev : Option Char),
      hasOpAux ws prev l = true ↔
        ∃ u t w, t ∈ ws ∧ l = u ++ t ++ w ∧ leftBoundary prev u = true ∧
          nextBoundary w = true := by
  intro l
  induction l with
  | nil =>
    intro prev
    simp only [hasOpAux, Bool.false_eq_true, false_iff]
    rintro ⟨u, t, w, ht, heq, -, -⟩
    obtain ⟨h1, -⟩ := List.append_eq_nil.mp heq.symm
    obtain ⟨-, h2⟩ := List.append_eq_nil.mp h1
    exact hne t ht h2
  | cons c rest ih =>
    intro prev
    simp only [hasOpAux, Bool.or_eq_true, Bool.and_eq_true, List.any_eq_true]
    constructor
    · rintro (⟨hpb, t, htmem, hpre, hnb⟩ | h2)
      · obtain ⟨w, hw⟩ : ∃ w, t ++ w = c :: rest := (isPrefixOf_eq_true_iff t _).mp hpre
        refine ⟨[], t, w, htmem, by simp [hw.symm], by simpa [leftBoundary_nil] using hpb, ?_⟩
        rwa [← hw, List.drop_left] at hnb
      · obtain ⟨u, t, w, ht, heq, hlb, hnb⟩ := (ih (some c)).mp h2
        exact ⟨c :: u, t, w, ht, by simp [heq], by rwa [leftBoundary_cons], hnb⟩
    · rintro ⟨u, t, w, ht, heq, hlb, hnb⟩
      rcases u with _ | ⟨d, u⟩
      · simp only [List.nil_append] at heq
        refine Or.inl ⟨by simpa [leftBoundary_nil] using hlb, t, ht, ?_, ?_⟩
        · exact (isPrefixOf_eq_true_iff t _).mpr ⟨w, heq.symm⟩
        · rw [heq, List.drop_left]
          exact hnb
      · obtain ⟨rfl, hrest⟩ : c = d ∧ rest = u ++ t ++ w := by simpa using heq
        refine Or.inr ((ih (some c)).mpr ⟨u, t, w, ht, hrest, ?_, hnb⟩)
        rwa [leftBoundary_cons] at hlb

theorem afterQuote_none (l : List Char) (hl : '"' ∉ l) (seen : Bool) :
    afterQuote seen l = false := by
  induction l generalizing seen with
  | nil => rfl
  | cons c rest ih =>
    have hc : ¬(c = '"') := fun h => hl (by simp [h])
    simp only [afterQuote, if_neg hc]
    exact ih (fun h => hl (List.mem_cons_of_mem _ h)) _

theorem afterQuote_no_quote (v : List Char) (hv : '"' ∉ v) (seen : Bool) (w : List Char) :
    afterQuote seen (v ++ '"' :: w) = true ↔
      seen = true ∨ '*' ∈ v ∨ afterQuote false w = true := by
  induction v generalizing seen with
  | nil => simp [afterQuote]
  | cons c v ih =>
    have hc : ¬(c = '"') := fun h => hv (by simp [h])
    have hv' : '"' ∉ v := fun h => hv (List.mem_cons_of_mem _ h)
    simp only [List.cons_append, afterQuote, if_neg hc, List.append_eq]
    rw [ih hv']
    simp only [Bool.or_eq_true, decide_eq_true_eq, List.mem_cons]
    rw [show (('*' : Char) = c) ↔ (c = '*') from eq_comm]
    tauto

theorem afterQuote_of_pattern :
    ∀ (u v w : List Char), '"' ∉ v → '*' ∈ v → ∀ seen,
      afterQuote seen (u ++ '"' :: v ++ '"' :: w) = true := by
  intro u
  induction u with
  | nil =>
    intro v w hv hs seen
    simp only [List.nil_append, afterQuote, if_true]
    have h := (afterQuote_no_quote v hv false w).mpr (Or.inr (Or.inl hs))
    simp [h]
  | cons c u ih =>
    intro v w hv hs seen
    by_cases hc : c = '"'
    · subst hc
      simp only [List.cons_append, afterQuote, if_true]
      have h := ih v w hv hs false
      simp only [List.append_assoc, List.cons_append] at h
      simp [h]
    · simp only [List.cons_append, afterQuote, if_neg hc]
      exact ih v w hv hs _

theorem pattern_of_afterQuote :
    ∀ (l : List Char) (seen : Bool), afterQuote seen l = true →
      (seen = true ∧ ∃ v w, l = v ++ '"' :: w ∧ '"' ∉ v) ∨
      (∃ v w, l = v ++ '"' :: w ∧ '"' ∉ v ∧ '*' ∈ v) ∨
      (∃ u v w, l = u ++ '"' :: v ++ '"' :: w ∧ '"' ∉ v ∧ '*' ∈ v) := by
  intro l
  induction l with
  | nil => intro seen h; exact absurd h (by simp [afterQuote])
  | cons c rest ih =>
    intro seen h
    by_cases hc : c = '"'
    · subst hc
      simp only [afterQuote, if_true, Bool.or_eq_true] at h
      rcases h with hseen | hrest
      · exact Or.inl ⟨hseen, [], rest, rfl, by simp⟩
      · rcases ih false hrest with ⟨hfalse, -⟩ | ⟨v, w, hrw, hv, hs⟩ | ⟨u, v, w, hrw, hv, hs⟩
        · exact absurd hfalse (by simp)
        · exact Or.inr (Or.inr ⟨[], v, w, by simp [hrw], hv, hs⟩)
        · exact Or.inr (Or.inr ⟨'"' :: u, v, w, by simp [hrw], hv, hs⟩)
    · simp only [afterQuote, if_neg hc] at h
      rcases ih _ h with ⟨hsc, v, w, hrw, hv⟩ | ⟨v, w, hrw, hv, hs⟩ | ⟨u, v, w, hrw, hv, hs⟩
      · have hnotin : '"' ∉ c :: v := by
          simp only [List.mem_cons, not_or]
          exact ⟨fun h' => hc h'.symm, hv⟩
        rw [Bool.or_eq_true, decide_eq_true_eq] at hsc
        rcases hsc with hseen | hstar
        · exact Or.inl ⟨hseen, c :: v, w, by simp [hrw], hnotin⟩
        · subst hstar
          exact Or.inr (Or.inl ⟨'*' :: v, w, by simp [hrw], hnotin, by simp⟩)
      · have hnotin : '"' ∉ c :: v := by
          simp only [List.mem_cons, not_or]
          exact ⟨fun h' => hc h'.symm, hv⟩
        exact Or.inr (Or.inl ⟨c :: v, w, by simp [hrw], hnotin, List.mem_cons_of_mem _ hs⟩)
      · exact Or.inr (Or.inr ⟨c :: u, v, w, by simp [hrw], hv, hs⟩)

/-- The scanner `quotedStar` finds exactly the strings with a `*` strictly
between two `"` characters that have no `"` between them. -/
theorem quotedStar_iff (s : List Char) :
    quotedStar s = true ↔
      ∃ u v w, s = u ++ '"' :: v ++ '"' :: w ∧ '"' ∉ v ∧ '*' ∈ v := by
  induction s with
  | nil =>
    simp only [quotedStar, Bool.false_eq_true, false_iff]
    rintro ⟨u, v, w, h, -, -⟩
    exact absurd h (by simp)
  | cons c rest ih =>
    by_cases hc : c = '"'
    · subst hc
      simp only [quotedStar, if_true]
      constructor
      · intro h
        rcases pattern_of_afterQuote rest false h with
          ⟨hfalse, -⟩ | ⟨v, w, hrw, hv, hs⟩ | ⟨u, v, w, hrw, hv, hs⟩
        · exact absurd hfalse (by simp)
        · exact ⟨[], v, w, by simp [hrw], hv, hs⟩
        · exact ⟨'"' :: u, v, w, by simp [hrw], hv, hs⟩
      · rintro ⟨u, v, w, hrw, hv, hs⟩
        rcases u with _ | ⟨d, u⟩
        · have hrest : rest = v ++ '"' :: w := by simpa using hrw
          rw [hrest]
          exact (afterQuote_no_quote v hv false w).mpr (Or.inr (Or.inl hs))
        · obtain ⟨-, hrest⟩ : ('"' : Char) = d ∧ rest = u ++ '"' :: v ++ '"' :: w := by
            simpa using hrw
          rw [hrest]
          exact afterQuote_of_pattern u v w hv hs false
    · simp only [quotedStar, if_neg hc]
      rw [ih]
      constructor
      · rintro ⟨u, v, w, hrw, hv, hs⟩
        exact ⟨c :: u, v, w, by simp [hrw], hv, hs⟩
      · rintro ⟨u, v, w, hrw, hv, hs⟩
        rcases u with _ | ⟨d, u⟩
        · exact absurd (by simpa using hrw : c = '"' ∧ rest = v ++ '"' :: w).1 hc
        · obtain ⟨rfl, hrest⟩ : c = d ∧ rest = u ++ '"' :: v ++ '"' :: w := by simpa using hrw
          exact ⟨u, v, w, hrest, hv, hs⟩

/-! ### Locating the brace-extraction window -/

theorem pyFind_cons_of_ne {c t : Char} (h : c ≠ t) (l : List Char) :
    pyFind (c :: l) t = (pyFind l t).map (· + 1) := by
  simp [pyFind, h]

theorem pyFind_prefix_free {t : Char} :
    ∀ (pre : List Char), t ∉ pre → ∀ r, pyFind (pre ++ t :: r) t = some pre.length := by
  intro pre
  induction pre with
  | nil => intro _ r; simp [pyFind]
  | cons c pre ih =>
    intro h r
    have hc : c ≠ t := fun hct => h (by simp [hct])
    have h' : t ∉ pre := fun hm => h (List.mem_cons_of_mem _ hm)
    rw [List.cons_append, pyFind_cons_of_ne hc, ih h' r]
    simp

theorem pyRfind_eq_none {t : Char} :
    ∀ (l : List Char), t ∉ l → pyRfind l t = none := by
  intro l
  induction l with
  | nil => intro _; rfl
  | cons c rest ih =>
    intro h
    have hc : ¬(c = t) := fun hct => h (by simp [hct])
    have h' : t ∉ rest := fun hm => h (List.mem_cons_of_mem _ hm)
    simp [pyRfind, ih h', hc]

theorem pyRfind_suffix_free {t : Char} :
    ∀ (x suf : List Char), t ∉ suf → pyRfind (x ++ t :: suf) t = some x.length := by
  intro x suf hsuf
  induction x with
  | nil => simp [pyRfind, pyRfind_eq_none suf hsuf]
  | cons c x ih => simp [pyRfind, ih]

theorem pySlice_middle (pre js suf : List Char) :
    pySlice (pre ++ js ++ suf) pre.length (pre.length + js.length) = js := by
  unfold pySlice
  rw [List.append_assoc, List.drop_left]
  have : pre.length + js.length - pre.length = js.length := by omega
  rw [this, List.take_left]

/-! ### Membership of individual issues in the reports -/

theorem length_beq_zero_iff (L : List String) : (L.length == 0) = true ↔ L = [] := by
  cases L <;> simp

theorem li_lower_mem (s : List Char) :
    liMsgLower ∈ (validate_linkedin_search s).issues ↔ hasLowerBoolOp s = true := by
  have hne1 : liMsgLower ≠ liMsgQuotes := by decide
  have hne2 : liMsgLower ≠ liMsgParens := by decide
  by_cases h1 : hasLowerBoolOp s = true <;>
    by_cases h2 : s.count '"' % 2 ≠ 0 <;>
      by_cases h3 : s.count '(' ≠ s.count ')' <;>
        simp [validate_linkedin_search, h1, h2, h3, hne1, hne2]

theorem da_wildBefore_mem (s : List Char) :
    daMsgWildBefore ∈ (validate_developmentaid_search s).issues ↔ starBeforeWord s = true := by
  have hne1 : daMsgWildBefore ≠ liMsgQuotes := by decide
  have hne2 : daMsgWildBefore ≠ liMsgParens := by decide
  have hne3 : daMsgWildBefore ≠ daMsgWildInside := by decide
  by_cases h1 : s.count '"' % 2 ≠ 0 <;>
    by_cases h2 : s.count '(' ≠ s.count ')' <;>
      by_cases h3 : starBeforeWord s = true <;>
        by_cases h4 : quotedStar s = true <;>
          simp [validate_developmentaid_search, h1, h2, h3, h4, hne1, hne2, hne3]

theorem da_wildInside_mem (s : List Char) :
    daMsgWildInside ∈ (validate_developmentaid_search s).issues ↔ quotedStar s = true := by
  have hne1 : daMsgWildInside ≠ liMsgQuotes := by decide
  have hne2 : daMsgWildInside ≠ liMsgParens := by decide
  have hne3 : daMsgWildInside ≠ daMsgWildBefore := by decide
  by_cases h1 : s.count '"' % 2 ≠ 0 <;>
    by_cases h2 : s.count '(' ≠ s.count ')' <;>
      by_cases h3 : starBeforeWord s = true <;>
        by_cases h4 : quotedStar s = true <;>
          simp [validate_developmentaid_search, h1, h2, h3, h4, hne1, hne2, hne3]

/-! ### The claims -/

/-- C1: for every search string and both platform validators, the report's
`valid` flag is true iff the `issues` list is empty; validity is computed from
`issues` alone (`warnings` enter neither side of the equivalence). -/
theorem claim1_valid_iff_no_issues :
    (∀ s : List Char,
      (validate_linkedin_search s).valid = true ↔ (validate_linkedin_search s).issues = []) ∧
    (∀ s : List Char,
      (validate_developmentaid_search s).valid = true ↔
        (validate_developmentaid_search s).issues = []) :=
  ⟨fun _ => length_beq_zero_iff _, fun _ => length_beq_zero_iff _⟩

/-- C2, counterexample: the LinkedIn validator counts ` AND ` on the
upper-cased string, so for `"x and y"` its `and_count` is 1 while the number
of occurrences of the token ` AND ` in the string itself is 0 — the claim's
description of `andCount` fails on this input. -/
theorem claim2_counterexample :
    ¬ ((validate_linkedin_search ("x and y".data)).and_count =
        countSubstr ("x and y".data) (" AND ".data)) := by decide

/-- C2, amended: `andCount`/`orCount` are the occurrences of ` AND `/` OR ` in
the *upper-cased* string (i.e. counted case-insensitively), `titleCount` the
occurrences of `title:` in the lower-cased string, and the complexity score is
`andCount*2 + orCount*0.5 + titleCount*3` (an exact multiple of 1/2, on which
rounding to one decimal is the identity). -/
theorem claim2_amended_counts : ∀ s : List Char,
    (validate_linkedin_search s).and_count = countSubstr (s.map Char.toUpper) (" AND ".data) ∧
    (validate_linkedin_search s).or_count = countSubstr (s.map Char.toUpper) (" OR ".data) ∧
    (validate_linkedin_search s).title_count = countSubstr (s.map Char.toLower) ("title:".data) ∧
    (validate_linkedin_search s).complexity_score =
      ((validate_linkedin_search s).and_count : ℚ) * 2 +
        ((validate_linkedin_search s).or_count : ℚ) * 0.5 +
        ((validate_linkedin_search s).title_count : ℚ) * 3 :=
  fun _ => ⟨rfl, rfl, rfl, rfl⟩

/-- C4: the job-board validator reports the prefix-wildcard issue exactly when
a `*` is immediately followed by a word character, and the in-phrase-wildcard
issue exactly when a `*` lies between two `"` characters with no `"` between
them; `*finance`, `financ*` and `"water *sanitation"` behave as claimed. -/
theorem claim4_devaid_wildcards :
    (∀ s : List Char,
      (daMsgWildBefore ∈ (validate_developmentaid_search s).issues ↔
        ∃ u c w, s = u ++ '*' :: c :: w ∧ isWordChar c = true) ∧
      (daMsgWildInside ∈ (validate_developmentaid_search s).issues ↔
        ∃ u v w, s = u ++ '"' :: v ++ '"' :: w ∧ '"' ∉ v ∧ '*' ∈ v)) ∧
    daMsgWildBefore ∈ (validate_developmentaid_search ("*finance".data)).issues ∧
    daMsgWildBefore ∉ (validate_developmentaid_search ("financ*".data)).issues ∧
    daMsgWildInside ∉ (validate_developmentaid_search ("financ*".data)).issues ∧
    daMsgWildInside ∈ (validate_developmentaid_search ("\"water *sanitation\"".data)).issues := by
  refine ⟨fun s => ⟨?_, ?_⟩, by decide, by decide, by decide, by decide⟩
  · rw [da_wildBefore_mem]
    exact starBeforeWord_iff s
  · rw [da_wildInside_mem]
    exact quotedStar_iff s

/-- C5: the LinkedIn validator reports the lower-case-operator issue exactly
when `and`, `or` or `not` occurs in the string with word boundaries on both
sides; `skill AND other` is clean and `skill and other` is flagged. -/
theorem claim5_lowercase_operator_issue :
    (∀ s : List Char,
      liMsgLower ∈ (validate_linkedin_search s).issues ↔
        ∃ u t w, (t = "and".data ∨ t = "or".data ∨ t = "not".data) ∧
          s = u ++ t ++ w ∧ leftBoundary none u = true ∧ nextBoundary w = true) ∧
    liMsgLower ∉ (validate_linkedin_search ("skill AND other".data)).issues ∧
    liMsgLower ∈ (validate_linkedin_search ("skill and other".data)).issues := by
  refine ⟨fun s => ?_, by decide, by decide⟩
  rw [li_lower_mem, hasLowerBoolOp,
    hasOpAux_iff ["and".data, "or".data, "not".data] (by decide) s none]
  simp [List.mem_cons]

/-- C9: the lower-case-operator check does not exempt quoted content — any
word-boundary occurrence of `and`/`or`/`not`, including one inside a quoted
phrase, makes the report invalid with the lower-case-operator issue, as on
`"research and development" AND Python`. -/
theorem claim9_quoted_content_not_exempt :
    (∀ (s u t w : List Char), (t = "and".data ∨ t = "or".data ∨ t = "not".data) →
      s = u ++ t ++ w → leftBoundary none u = true → nextBoundary w = true →
      (validate_linkedin_search s).valid = false ∧
        liMsgLower ∈ (validate_linkedin_search s).issues) ∧
    ((validate_linkedin_search ("\"research and development\" AND Python".data)).valid = false ∧
      liMsgLower ∈
        (validate_linkedin_search ("\"research and development\" AND Python".data)).issues) := by
  constructor
  · intro s u t w hmem heq hlb hnb
    have hop : hasLowerBoolOp s = true := by
      rw [hasLowerBoolOp, hasOpAux_iff ["and".data, "or".data, "not".data] (by decide) s none]
      refine ⟨u, t, w, ?_, heq, hlb, hnb⟩
      rcases hmem with rfl | rfl | rfl <;> simp
    have hmem' := (li_lower_mem s).mpr hop
    refine ⟨?_, hmem'⟩
    cases hv : (validate_linkedin_search s).valid
    · rfl
    · have hempty : (validate_linkedin_search s).issues = [] := (length_beq_zero_iff _).mp hv
      rw [hempty] at hmem'
      exact absurd hmem' (List.not_mem_nil _)
  · exact ⟨by decide, by decide⟩

/-- Witness for C9: the general statement applied to the concrete quoted
example, with `u = "research `, `t = and`, `w =  development" AND Python`. -/
theorem claim9_witness :
    (validate_linkedin_search ("\"research and development\" AND Python".data)).valid = false ∧
    liMsgLower ∈
      (validate_linkedin_search ("\"research and development\" AND Python".data)).issues :=
  claim9_quoted_content_not_exempt.1 ("\"research and development\" AND Python".data)
    ("\"research ".data) ("and".data) (" development\" AND Python".data)
    (Or.inl rfl) (by decide) (by decide) (by decide)

/-- C3: the estimator's score is `100 * 0.35^andCount * 0.25^titleCount`,
further multiplied by `0.7` when the length exceeds 500, and the returned
range is `500-2000+` for score > 50, `100-500` for 50 ≥ score > 20, `20-100`
for 20 ≥ score > 5, and `0-20` otherwise; `(Python OR Java)` maps to
`500-2000+`, and the same string extended with four ` AND ` clauses
(`andCount = 4`) maps to `0-20`. -/
theorem claim3_estimator :
    (∀ s : List Char,
      linkedinScore s =
        (if (validate_linkedin_search s).length > 500 then
          100 * (0.35 : ℚ) ^ (validate_linkedin_search s).and_count *
            (0.25 : ℚ) ^ (validate_linkedin_search s).title_count * 0.7
        else
          100 * (0.35 : ℚ) ^ (validate_linkedin_search s).and_count *
            (0.25 : ℚ) ^ (validate_linkedin_search s).title_count) ∧
      (estimate_linkedin_results s).score = linkedinScore s ∧
      (estimate_linkedin_results s).estimated_range =
        (if linkedinScore s > 50 then "500-2000+"
         else if linkedinScore s > 20 then "100-500"
         else if linkedinScore s > 5 then "20-100"
         else "0-20")) ∧
    (estimate_linkedin_results ("(Python OR Java)".data)).estimated_range = "500-2000+" ∧
    (estimate_linkedin_results
      ("(Python OR Java) AND Django AND AWS AND Docker AND Linux".data)).estimated_range =
        "0-20" := by
  refine ⟨fun s => ⟨rfl, ?_, ?_⟩, ?_, ?_⟩
  · simp only [estimate_linkedin_results]
    split_ifs <;> rfl
  · simp only [estimate_linkedin_results]
    split_ifs <;> rfl
  · have ha : (validate_linkedin_search ("(Python OR Java)".data)).and_count = 0 := by decide
    have ht : (validate_linkedin_search ("(Python OR Java)".data)).title_count = 0 := by decide
    have hl : (validate_linkedin_search ("(Python OR Java)".data)).length = 16 := by decide
    simp only [estimate_linkedin_results, linkedinScore, ha, ht, hl]
    norm_num
  · have ha :
        (validate_linkedin_search
          ("(Python OR Java) AND Django AND AWS AND Docker AND Linux".data)).and_count = 4 := by
      decide
    have ht :
        (validate_linkedin_search
          ("(Python OR Java) AND Django AND AWS AND Docker AND Linux".data)).title_count = 0 := by
      decide
    have hl :
        (validate_linkedin_search
          ("(Python OR Java) AND Django AND AWS AND Docker AND Linux".data)).length = 56 := by
      decide
    simp only [estimate_linkedin_results, linkedinScore, ha, ht, hl]
    norm_num

/-- C8: the empty string is accepted by both validators with empty issue and
warning lists, zero operator counts, zero length and complexity score 0.0,
and the LinkedIn estimator gives it score 100.0 with range `500-2000+`. -/
theorem claim8_empty_string :
    (validate_linkedin_search ([] : List Char)).valid = true ∧
    (validate_linkedin_search ([] : List Char)).issues = [] ∧
    (validate_linkedin_search ([] : List Char)).warnings = [] ∧
    (validate_linkedin_search ([] : List Char)).complexity_score = 0 ∧
    (validate_linkedin_search ([] : List Char)).and_count = 0 ∧
    (validate_linkedin_search ([] : List Char)).or_count = 0 ∧
    (validate_linkedin_search ([] : List Char)).title_count = 0 ∧
    (validate_linkedin_search ([] : List Char)).length = 0 ∧
    (validate_developmentaid_search ([] : List Char)).valid = true ∧
    (validate_developmentaid_search ([] : List Char)).issues = [] ∧
    (validate_developmentaid_search ([] : List Char)).warnings = [] ∧
    (validate_developmentaid_search ([] : List Char)).complexity_score = 0 ∧
    (validate_developmentaid_search ([] : List Char)).and_count = 0 ∧
    (validate_developmentaid_search ([] : List Char)).or_count = 0 ∧
    (validate_developmentaid_search ([] : List Char)).not_count = 0 ∧
    (validate_developmentaid_search ([] : List Char)).length = 0 ∧
    (estimate_linkedin_results ([] : List Char)).score = 100 ∧
    (estimate_linkedin_results ([] : List Char)).estimated_range = "500-2000+" := by
  have ha : (validate_linkedin_search ([] : List Char)).and_count = 0 := by decide
  have ht : (validate_linkedin_search ([] : List Char)).title_count = 0 := by decide
  have hl : (validate_linkedin_search ([] : List Char)).length = 0 := by decide
  have hsc : linkedinScore ([] : List Char) = 100 := by
    simp only [linkedinScore, ha, ht, hl]
    norm_num
  refine ⟨by decide, by decide, by decide, ?_, by decide, by decide, by decide, by decide,
    by decide, by decide, by decide, ?_, by decide, by decide, by decide, by decide, ?_, ?_⟩
  · show ((0 : ℚ) * 2 + (0 : ℚ) * 0.5 + (0 : ℚ) * 3 = 0)
    norm_num
  · show ((0 : ℚ) * 1.5 + (0 : ℚ) * 0.3 + (0 : ℚ) * 1 = 0)
    norm_num
  · have hscore : (estimate_linkedin_results ([] : List Char)).score = linkedinScore [] := by
      simp only [estimate_linkedin_results]
      split_ifs <;> rfl
    rw [hscore, hsc]
  · simp only [estimate_linkedin_results, hsc]
    norm_num

/-- C6: the prompt embeds exactly the first 15,000 characters of the job text:
the built prompt is the fixed prefix (through the configuration section),
followed by `job.data.take 15000` as a contiguous substring, followed by the
fixed output-format suffix, and its length accounts for `min 15000 job.length`
job characters — so no character past the 15,000 boundary is embedded. -/
theorem claim6_prompt_truncates :
    ∀ (job platform domain : String) (a b : Bool),
      (create_improved_prompt job platform domain a b).data =
        (promptPart1 ++ promptContext domain ++ promptPart2 ++ platform ++ promptPart3 ++
          domain ++ promptPart4 ++ pyBoolStr a ++ promptPart5 ++ pyBoolStr b ++
          promptPart6).data ++ job.data.take 15000 ++ promptPart7.data ∧
      (∃ x y, (create_improved_prompt job platform domain a b).data =
        x ++ job.data.take 15000 ++ y) ∧
      (create_improved_prompt job platform domain a b).length =
        (promptPart1 ++ promptContext domain ++ promptPart2 ++ platform ++ promptPart3 ++
          domain ++ promptPart4 ++ pyBoolStr a ++ promptPart5 ++ pyBoolStr b ++
          promptPart6).length + min 15000 job.length + promptPart7.length := by
  intro job platform domain a b
  have hstr : ∀ t : String, t.length = t.data.length := fun _ => rfl
  have hdata : (create_improved_prompt job platform domain a b).data =
      (promptPart1 ++ promptContext domain ++ promptPart2 ++ platform ++ promptPart3 ++
        domain ++ promptPart4 ++ pyBoolStr a ++ promptPart5 ++ pyBoolStr b ++
        promptPart6).data ++ job.data.take 15000 ++ promptPart7.data := by
    simp only [create_improved_prompt, truncate15000, String.data_append, List.append_assoc]
  refine ⟨hdata, ⟨_, _, hdata⟩, ?_⟩
  rw [hstr, hstr, hstr, hstr, hdata]
  simp [List.length_append, List.length_take, Nat.add_assoc]

/-- C10: `get_domain_context` is non-empty exactly on the three domains
`software_engineering`, `international_development` and `finance`; for every
other domain (in particular the selectable `healthcare` and `consulting`) it
returns `""`, so the built prompt carries an empty domain-context slot. -/
theorem claim10_domain_contexts :
    (∀ d : String, d ≠ "software_engineering" → d ≠ "international_development" →
      d ≠ "finance" → get_domain_context d = "") ∧
    get_domain_context "software_engineering" ≠ "" ∧
    get_domain_context "international_development" ≠ "" ∧
    get_domain_context "finance" ≠ "" ∧
    (∀ (job platform : String) (a b : Bool),
      create_improved_prompt job platform "healthcare" a b =
        promptPart1 ++ "" ++ promptPart2 ++ platform ++ promptPart3 ++ "healthcare" ++
          promptPart4 ++ pyBoolStr a ++ promptPart5 ++ pyBoolStr b ++ promptPart6 ++
          truncate15000 job ++ promptPart7) ∧
    (∀ (job platform : String) (a b : Bool),
      create_improved_prompt job platform "consulting" a b =
        promptPart1 ++ "" ++ promptPart2 ++ platform ++ promptPart3 ++ "consulting" ++
          promptPart4 ++ pyBoolStr a ++ promptPart5 ++ pyBoolStr b ++ promptPart6 ++
          truncate15000 job ++ promptPart7) := by
  refine ⟨?_, by decide, by decide, by decide, ?_, ?_⟩
  · intro d h1 h2 h3
    simp [get_domain_context, h1, h2, h3]
  · intro job platform a b
    have hctx : promptContext "healthcare" = "" := rfl
    unfold create_improved_prompt
    rw [hctx]
  · intro job platform a b
    have hctx : promptContext "consulting" = "" := rfl
    unfold create_improved_prompt
    rw [hctx]

/-- Witness for C10: the non-special domains `healthcare` and `consulting`
(and `general`) contribute no context block. -/
theorem claim10_witness :
    get_domain_context "healthcare" = "" ∧ get_domain_context "consulting" = "" ∧
    get_domain_context "general" = "" :=
  ⟨claim10_domain_contexts.1 "healthcare" (by decide) (by decide) (by decide),
   claim10_domain_contexts.1 "consulting" (by decide) (by decide) (by decide),
   claim10_domain_contexts.1 "general" (by decide) (by decide) (by decide)⟩

/-- C7: when the strict JSON parse of the response body fails, the recovery
path parses the substring from the first `\x7b` to the last `\x7d`; for a body
`prose ++ json ++ prose` (no `\x7b` in the prefix, no `\x7d` in the suffix,
`json` delimited by braces) this substring is exactly `json`, so the call
returns the same analysis object as for the bare JSON document — and `none`
when that parse also fails; with no brace pair the call yields no analysis. -/
theorem claim7_json_fallback :
    (∀ (pre js suf : List Char), lbrace ∉ pre → rbrace ∉ suf →
      (∃ r, js = lbrace :: r) → (∃ x, js = x ++ [rbrace]) →
      jsonLoads (pre ++ js ++ suf) = none →
      parse_model_response (pre ++ js ++ suf) = jsonLoads js) ∧
    (∀ content : List Char, jsonLoads content = none → pyFind content lbrace = none →
      parse_model_response content = none) := by
  constructor
  · rintro pre js suf hpre hsuf ⟨r, hr⟩ ⟨x, hx⟩ hstrict
    have h1 : pre ++ js ++ suf = pre ++ lbrace :: (r ++ suf) := by
      rw [hr, List.append_assoc, List.cons_append]
    have hfind : pyFind (pre ++ js ++ suf) lbrace = some pre.length := by
      rw [h1]
      exact pyFind_prefix_free pre hpre _
    have h2 : pre ++ js ++ suf = (pre ++ x) ++ rbrace :: suf := by
      rw [hx]
      simp [List.append_assoc]
    have hrfind : pyRfind (pre ++ js ++ suf) rbrace = some (pre.length + x.length) := by
      rw [h2]
      have h := pyRfind_suffix_free (pre ++ x) suf hsuf
      simpa [List.length_append] using h
    have hslice : pySlice (pre ++ js ++ suf) pre.length (pre.length + x.length + 1) = js := by
      have hj : js.length = x.length + 1 := by rw [hx]; simp
      have h := pySlice_middle pre js suf
      rw [hj, ← Nat.add_assoc] at h
      exact h
    simp only [parse_model_response, hstrict, hfind, hrfind]
    rw [hslice]
  · intro content h1 h2
    simp only [parse_model_response, h1, h2]

/-- Witness for C7: a body of the form `Here you go:` + JSON object +
`Hope this helps!` parses via the fallback to the same object as the pure
JSON document, which the strict parser does accept. -/
theorem claim7_witness :
    parse_model_response ("Here you go:\n".data ++
        "\x7b\"domain_detected\": \"x\", \"analysis\": \"y\"\x7d".data ++
        "\nHope this helps!".data) =
      jsonLoads ("\x7b\"domain_detected\": \"x\", \"analysis\": \"y\"\x7d".data) ∧
    (jsonLoads ("\x7b\"domain_detected\": \"x\", \"analysis\": \"y\"\x7d".data)).isSome = true :=
  ⟨claim7_json_fallback.1 ("Here you go:\n".data)
      ("\x7b\"domain_detected\": \"x\", \"analysis\": \"y\"\x7d".data)
      ("\nHope this helps!".data) (by decide) (by decide)
      ⟨"\"domain_detected\": \"x\", \"analysis\": \"y\"\x7d".data, by decide⟩
      ⟨"\x7b\"domain_detected\": \"x\", \"analysis\": \"y\"".data, by decide⟩
      (by rfl),
    by rfl⟩
